import Mathlib

/-!
# SocketCAN raw dialer (`pkg/socketcan/dialraw_linux.go`)

A shallow embedding of the option accumulator (`dialOpts`,
`WithReceiveErrorFrames`, `WithFilterReceivedFramesByID`) and of the socket
establisher `dialRaw`, followed by the properties proved about them.

Conventions of the embedding:
* `uint32` identifiers and masks are naturals; the only arithmetic on them is
  `id |= CAN_INV_FILTER`, which cannot leave the 32-bit range
  (`lor_CAN_INV_FILTER_lt`).
* a Go pointer that may be nil (`*int`, `error`, `net.Conn`) is an `Option`.
* the kernel is a record of state-passing operations; every call `dialRaw`
  makes is appended to a log together with what the kernel answered.
-/

namespace socketcan

/-! ## Constants of `golang.org/x/sys/unix` -/

/-- The constant `unix.CAN_INV_FILTER`. -/
def CAN_INV_FILTER : Nat := 0x20000000

/-- The constant `unix.CAN_ERR_MASK`. -/
def CAN_ERR_MASK : Int := 0x1fffffff

/-- The constant `unix.AF_CAN`. -/
def AF_CAN : Nat := 0x1d

/-- The constant `unix.SOCK_RAW`. -/
def SOCK_RAW : Nat := 0x3

/-- The constant `unix.CAN_RAW`. -/
def CAN_RAW : Nat := 0x1

/-- The constant `unix.SOL_CAN_RAW`. -/
def SOL_CAN_RAW : Nat := 0x65

/-- The constant `unix.CAN_RAW_FILTER`. -/
def CAN_RAW_FILTER : Nat := 0x1

/-- The constant `unix.CAN_RAW_ERR_FILTER`. -/
def CAN_RAW_ERR_FILTER : Nat := 0x2

/-! ## Data model -/

/-- The kernel-facing filter `unix.CanFilter` (`Id uint32`, `Mask uint32`). -/
structure CanFilter where
  Id : Nat
  Mask : Nat
  deriving DecidableEq, Repr

/-- Modelled from the spec: the type declaration `IDFilter` is not in the
source file; the spec gives its three fields, a CAN identifier, a mask and an
exclude flag (`{ID: integer, Mask: integer, Exclude: bool}`). -/
structure IDFilter where
  ID : Nat
  Mask : Nat
  Exclude : Bool
  deriving DecidableEq, Repr

/-- The configuration `dialOpts`: `errorFrameMask *int` (nil is `none`) and
`rawFilters []unix.CanFilter`. -/
structure dialOpts where
  errorFrameMask : Option Int := none
  rawFilters : List CanFilter := []
  deriving DecidableEq, Repr

/-- A `DialOption` is a function mutating the configuration it is given. -/
abbrev DialOption := dialOpts → dialOpts

/-! ## Option accumulator -/

/-- The option `WithReceiveErrorFrames()`: stores a pointer to
`unix.CAN_ERR_MASK` in `errorFrameMask`. -/
def WithReceiveErrorFrames : DialOption := fun o =>
  let canErrMask := CAN_ERR_MASK
  { o with errorFrameMask := some canErrMask }

/-- The option `WithFilterReceivedFramesByID(filters)`: one `append` per
input filter, in range order. -/
def WithFilterReceivedFramesByID (filters : List IDFilter) : DialOption := fun o =>
  filters.foldl
    (fun o filter =>
      let id := filter.ID
      let id := if filter.Exclude then id ||| CAN_INV_FILTER else id
      { o with rawFilters := o.rawFilters ++ [{ Id := id, Mask := filter.Mask }] })
    o

/-- The loop `for _, f := range opt { f(&opts) }` of `dialRaw`, started from
the configuration `opts`. -/
def applyOptions (opt : List DialOption) (opts : dialOpts) : dialOpts :=
  opt.foldl (fun o f => f o) opts

/-- A description of an option by the constructor that built it. -/
inductive OptionCall where
  | receiveErrorFrames
  | filterReceivedFramesByID (filters : List IDFilter)
  deriving DecidableEq, Repr

/-- The `DialOption` that the described constructor call returns. -/
def OptionCall.toOption : OptionCall → DialOption
  | .receiveErrorFrames => WithReceiveErrorFrames
  | .filterReceivedFramesByID filters => WithFilterReceivedFramesByID filters

/-! ## Errors -/

/-- Modelled from the spec: the type declaration `canRawAddr` and its
`String` method are not in the source file; the spec says the address value
carries only the device name. The field name is the one `dialRaw` writes in
its composite literal. -/
structure canRawAddr where
  device : String
  deriving DecidableEq, Repr

/-- Modelled from the spec: `canRawAddr.String`, absent from the source file,
reports the device name the address carries. -/
def canRawAddr.String (a : canRawAddr) : String := a.device

/-- Go error values met by `dialRaw`: an error handed back by the kernel
boundary (any code, any text), the wrapper built by `fmt.Errorf` with `%w`,
and `net.OpError` (its `Source` is never set here and is left out). -/
inductive Error where
  | primitive (code : Nat) (text : String)
  | wrapError (msg : String) (err : Error)
  | OpError (Op : String) (Net : String) (Addr : Option canRawAddr) (Err : Error)
  deriving DecidableEq, Repr

/-- The method `Error()`: the text of an error. For `net.OpError` it is the
operation, then the network when it is not empty, then the address when it is
not nil, then a colon and the text of the inner error. -/
def Error.errorText : Error → String
  | .primitive _ text => text
  | .wrapError msg _ => msg
  | .OpError Op Net Addr Err =>
    let s := Op
    let s := if Net ≠ "" then s ++ " " ++ Net else s
    let s := match Addr with
      | some a => s ++ " " ++ a.String
      | none => s
    s ++ ": " ++ Err.errorText

/-- The method `Unwrap()`: the error directly wrapped, if any. -/
def Error.Unwrap : Error → Option Error
  | .primitive _ _ => none
  | .wrapError _ err => some err
  | .OpError _ _ _ Err => some Err

/-- The call `fmt.Errorf(text + ": %w", err)`: the message is `text`, a colon,
a space and the text of `err`; `err` is what `Unwrap` gives back. -/
def Errorf (text : String) (err : Error) : Error :=
  .wrapError (text ++ ": " ++ err.errorText) err

/-! ## The kernel boundary -/

/-- The part of `net.Interface` that `dialRaw` reads. -/
structure Interface where
  Index : Int
  deriving DecidableEq, Repr

/-- The socket address `unix.SockaddrCAN` as `dialRaw` builds it. -/
structure SockaddrCAN where
  Ifindex : Int
  deriving DecidableEq, Repr

/-- The value `os.NewFile(fd, name)`: a file owning descriptor `fd`. -/
structure File where
  fd : Nat
  name : String
  deriving DecidableEq, Repr

/-- The connection `fileConn` with the two fields `dialRaw` sets. -/
structure fileConn where
  ra : canRawAddr
  f : File
  deriving DecidableEq, Repr

/-- The operations `dialRaw` asks of the host, over a kernel state `σ`. Each
takes a state and returns its answer with the next state. A descriptor
returned without error is non-negative, hence a natural. -/
structure Kernel (σ : Type) where
  InterfaceByName : String → σ → Except Error Interface × σ
  Socket : Nat → Nat → Nat → σ → Except Error Nat × σ
  SetsockoptInt : Nat → Nat → Nat → Int → σ → Option Error × σ
  SetsockoptCanRawFilter : Nat → Nat → Nat → List CanFilter → σ → Option Error × σ
  SetNonblock : Nat → Bool → σ → Option Error × σ
  Bind : Nat → SockaddrCAN → σ → Option Error × σ

/-- A call at the kernel boundary with its arguments. `Close` is part of the
boundary although `dialRaw` never issues it. -/
inductive Call where
  | InterfaceByName (name : String)
  | Socket (domain : Nat) (typ : Nat) (proto : Nat)
  | SetsockoptInt (fd : Nat) (level : Nat) (opt : Nat) (value : Int)
  | SetsockoptCanRawFilter (fd : Nat) (level : Nat) (opt : Nat) (filter : List CanFilter)
  | SetNonblock (fd : Nat) (nonblocking : Bool)
  | Bind (fd : Nat) (sa : SockaddrCAN)
  | Close (fd : Nat)
  deriving DecidableEq, Repr

/-- What the kernel answered to a call. -/
inductive Result where
  | failed (err : Error)
  | iface (ifi : Interface)
  | descriptor (fd : Nat)
  | done
  deriving DecidableEq, Repr

/-- One entry of the call log. -/
structure Event where
  call : Call
  result : Result
  deriving DecidableEq, Repr

/-- The error of a logged call, `none` when it succeeded. -/
def Event.err (ev : Event) : Option Error :=
  match ev.result with
  | .failed err => some err
  | _ => none

/-- Kernel state together with the log of calls made so far. -/
structure World (σ : Type) where
  state : σ
  log : List Event

/-- Log entry for an answer that is an interface or an error. -/
def Result.ofInterface : Except Error Interface → Result
  | .ok ifi => .iface ifi
  | .error err => .failed err

/-- Log entry for an answer that is a descriptor or an error. -/
def Result.ofDescriptor : Except Error Nat → Result
  | .ok fd => .descriptor fd
  | .error err => .failed err

/-- Log entry for an answer that is only an error or nil. -/
def Result.ofErr : Option Error → Result
  | none => .done
  | some err => .failed err

/-- Logged `net.InterfaceByName(name)`. -/
def sysInterfaceByName {σ : Type} (K : Kernel σ) (name : String) (w : World σ) :
    Except Error Interface × World σ :=
  let r := K.InterfaceByName name w.state
  (r.1, ⟨r.2, w.log ++ [⟨.InterfaceByName name, .ofInterface r.1⟩]⟩)

/-- Logged `unix.Socket(domain, typ, proto)`. -/
def sysSocket {σ : Type} (K : Kernel σ) (domain typ proto : Nat) (w : World σ) :
    Except Error Nat × World σ :=
  let r := K.Socket domain typ proto w.state
  (r.1, ⟨r.2, w.log ++ [⟨.Socket domain typ proto, .ofDescriptor r.1⟩]⟩)

/-- Logged `unix.SetsockoptInt(fd, level, opt, value)`. -/
def sysSetsockoptInt {σ : Type} (K : Kernel σ) (fd level opt : Nat) (value : Int)
    (w : World σ) : Option Error × World σ :=
  let r := K.SetsockoptInt fd level opt value w.state
  (r.1, ⟨r.2, w.log ++ [⟨.SetsockoptInt fd level opt value, .ofErr r.1⟩]⟩)

/-- Logged `unix.SetsockoptCanRawFilter(fd, level, opt, filter)`. -/
def sysSetsockoptCanRawFilter {σ : Type} (K : Kernel σ) (fd level opt : Nat)
    (filter : List CanFilter) (w : World σ) : Option Error × World σ :=
  let r := K.SetsockoptCanRawFilter fd level opt filter w.state
  (r.1, ⟨r.2, w.log ++ [⟨.SetsockoptCanRawFilter fd level opt filter, .ofErr r.1⟩]⟩)

/-- Logged `unix.SetNonblock(fd, nonblocking)`. -/
def sysSetNonblock {σ : Type} (K : Kernel σ) (fd : Nat) (nonblocking : Bool)
    (w : World σ) : Option Error × World σ :=
  let r := K.SetNonblock fd nonblocking w.state
  (r.1, ⟨r.2, w.log ++ [⟨.SetNonblock fd nonblocking, .ofErr r.1⟩]⟩)

/-- Logged `unix.Bind(fd, sa)`. -/
def sysBind {σ : Type} (K : Kernel σ) (fd : Nat) (sa : SockaddrCAN) (w : World σ) :
    Option Error × World σ :=
  let r := K.Bind fd sa w.state
  (r.1, ⟨r.2, w.log ++ [⟨.Bind fd sa, .ofErr r.1⟩]⟩)

/-! ## Socket establisher -/

/-- What a run of `dialRaw` leaves behind: the two return values, the kernel
state and the calls made. -/
structure DialResult (σ : Type) where
  conn : Option fileConn
  err : Option Error
  world : World σ

/-- The body of `dialRaw` (lines 24 to 53), before the deferred function
runs: the named results `conn`, `err` at the `return` reached. -/
def dialRawBody {σ : Type} (K : Kernel σ) (w : World σ) (device : String)
    (opt : List DialOption) : DialResult σ :=
  let opts := applyOptions opt {}
  match sysInterfaceByName K device w with
  | (.error err, w) => ⟨none, some (Errorf ("interface " ++ device) err), w⟩
  | (.ok ifi, w) =>
  match sysSocket K AF_CAN SOCK_RAW CAN_RAW w with
  | (.error err, w) => ⟨none, some (Errorf "socket" err), w⟩
  | (.ok fd, w) =>
  match (match opts.errorFrameMask with
    | some mask => sysSetsockoptInt K fd SOL_CAN_RAW CAN_RAW_ERR_FILTER mask w
    | none => (none, w)) with
  | (some err, w) => ⟨none, some (Errorf "set error filter" err), w⟩
  | (none, w) =>
  match (if opts.rawFilters.length ≠ 0 then
      sysSetsockoptCanRawFilter K fd SOL_CAN_RAW CAN_RAW_FILTER opts.rawFilters w
    else (none, w)) with
  | (some err, w) => ⟨none, some (Errorf "set raw filter" err), w⟩
  | (none, w) =>
  match sysSetNonblock K fd true w with
  | (some err, w) => ⟨none, some (Errorf "set nonblock" err), w⟩
  | (none, w) =>
  match sysBind K fd { Ifindex := ifi.Index } w with
  | (some err, w) => ⟨none, some (Errorf "bind" err), w⟩
  | (none, w) => ⟨some { ra := { device := device }, f := { fd := fd, name := "can" } }, none, w⟩

/-- The function `dialRaw`: the body, then the deferred function, which
replaces a non-nil `err` by a `net.OpError` around it. The constant
`canRawNetwork` is declared outside the source file and is a parameter; the
kernel starts in state `s` with an empty call log. -/
def dialRaw {σ : Type} (canRawNetwork : String) (K : Kernel σ) (s : σ) (device : String)
    (opt : List DialOption) : DialResult σ :=
  let r := dialRawBody K ⟨s, []⟩ device opt
  match r.err with
  | some err =>
    { r with err := some (.OpError "dial" canRawNetwork (some { device := device }) err) }
  | none => r

/-- The calls of a run, in the order made. -/
def DialResult.calls {σ : Type} (r : DialResult σ) : List Call :=
  r.world.log.map Event.call

/-! ## Vocabulary of the properties -/

/-- The raw filter entry that one pass of the loop of
`WithFilterReceivedFramesByID` appends for `filter`. -/
def rawFilterOf (filter : IDFilter) : CanFilter :=
  { Id := if filter.Exclude then filter.ID ||| CAN_INV_FILTER else filter.ID,
    Mask := filter.Mask }

/-- The inversion bit of a stored identifier is set: `id & CAN_INV_FILTER`
is not zero. -/
def invBitSet (id : Nat) : Bool := id &&& CAN_INV_FILTER != 0

/-- The identifier with its inversion bit cleared, `id &^ CAN_INV_FILTER`:
the bits of `id` that are not in `CAN_INV_FILTER`. -/
def clearInvBit (id : Nat) : Nat := id ^^^ (id &&& CAN_INV_FILTER)

/-- The tag under which `dialRaw` wraps the failure of a call: the constant
text of the `fmt.Errorf` at that step. -/
def stepTag (device : String) : Call → String
  | .InterfaceByName _ => "interface " ++ device
  | .Socket _ _ _ => "socket"
  | .SetsockoptInt _ _ _ _ => "set error filter"
  | .SetsockoptCanRawFilter _ _ _ _ => "set raw filter"
  | .SetNonblock _ _ => "set nonblock"
  | .Bind _ _ => "bind"
  | .Close _ => "close"

/-- The error-filter call of a dial on descriptor `fd`: present exactly when
the mask is set. -/
def errFilterCalls (opts : dialOpts) (fd : Nat) : List Call :=
  match opts.errorFrameMask with
  | some mask => [.SetsockoptInt fd SOL_CAN_RAW CAN_RAW_ERR_FILTER mask]
  | none => []

/-- The raw-filter call of a dial on descriptor `fd`: present exactly when
the filter list is not empty, and then it carries the whole list. -/
def rawFilterCalls (opts : dialOpts) (fd : Nat) : List Call :=
  if opts.rawFilters = [] then []
  else [.SetsockoptCanRawFilter fd SOL_CAN_RAW CAN_RAW_FILTER opts.rawFilters]

/-- The whole sequence of calls of a dial in which nothing fails: resolve,
open, error filter (if the mask is set), raw filter (if there are filters),
non-blocking, bind. -/
def fullSequence (device : String) (opts : dialOpts) (ifi : Interface) (fd : Nat) :
    List Call :=
  [.InterfaceByName device, .Socket AF_CAN SOCK_RAW CAN_RAW]
    ++ errFilterCalls opts fd ++ rawFilterCalls opts fd
    ++ [.SetNonblock fd true, .Bind fd { Ifindex := ifi.Index }]

/-- A logged call that succeeded with nothing to return. -/
def Event.done (c : Call) : Event := { call := c, result := .done }

/-- The log entries of the socket-option calls of a dial when both succeed. -/
def sockoptEvents (opts : dialOpts) (fd : Nat) : List Event :=
  (errFilterCalls opts fd ++ rawFilterCalls opts fd).map Event.done

/-- The ways a run of the body of `dialRaw` can end under configuration
`opts`, each with the connection, the error and the log it ends with: a
failure of one of the six steps, or success. -/
inductive Outcome (device : String) (opts : dialOpts) :
    Option fileConn → Option Error → List Event → Prop where
  | resolveFailed (e : Error) :
    Outcome device opts none (some (Errorf ("interface " ++ device) e))
      [⟨.InterfaceByName device, .failed e⟩]
  | socketFailed (ifi : Interface) (e : Error) :
    Outcome device opts none (some (Errorf "socket" e))
      [⟨.InterfaceByName device, .iface ifi⟩, ⟨.Socket AF_CAN SOCK_RAW CAN_RAW, .failed e⟩]
  | errFilterFailed (ifi : Interface) (fd : Nat) (mask : Int) (e : Error)
      (hmask : opts.errorFrameMask = some mask) :
    Outcome device opts none (some (Errorf "set error filter" e))
      [⟨.InterfaceByName device, .iface ifi⟩, ⟨.Socket AF_CAN SOCK_RAW CAN_RAW, .descriptor fd⟩,
       ⟨.SetsockoptInt fd SOL_CAN_RAW CAN_RAW_ERR_FILTER mask, .failed e⟩]
  | rawFilterFailed (ifi : Interface) (fd : Nat) (e : Error) (hne : opts.rawFilters ≠ []) :
    Outcome device opts none (some (Errorf "set raw filter" e))
      ([⟨.InterfaceByName device, .iface ifi⟩,
        ⟨.Socket AF_CAN SOCK_RAW CAN_RAW, .descriptor fd⟩]
        ++ (errFilterCalls opts fd).map Event.done
        ++ [⟨.SetsockoptCanRawFilter fd SOL_CAN_RAW CAN_RAW_FILTER opts.rawFilters, .failed e⟩])
  | nonblockFailed (ifi : Interface) (fd : Nat) (e : Error) :
    Outcome device opts none (some (Errorf "set nonblock" e))
      ([⟨.InterfaceByName device, .iface ifi⟩,
        ⟨.Socket AF_CAN SOCK_RAW CAN_RAW, .descriptor fd⟩]
        ++ sockoptEvents opts fd ++ [⟨.SetNonblock fd true, .failed e⟩])
  | bindFailed (ifi : Interface) (fd : Nat) (e : Error) :
    Outcome device opts none (some (Errorf "bind" e))
      ([⟨.InterfaceByName device, .iface ifi⟩,
        ⟨.Socket AF_CAN SOCK_RAW CAN_RAW, .descriptor fd⟩]
        ++ sockoptEvents opts fd
        ++ [⟨.SetNonblock fd true, .done⟩, ⟨.Bind fd { Ifindex := ifi.Index }, .failed e⟩])
  | success (ifi : Interface) (fd : Nat) :
    Outcome device opts
      (some { ra := { device := device }, f := { fd := fd, name := "can" } }) none
      ([⟨.InterfaceByName device, .iface ifi⟩,
        ⟨.Socket AF_CAN SOCK_RAW CAN_RAW, .descriptor fd⟩]
        ++ sockoptEvents opts fd
        ++ [⟨.SetNonblock fd true, .done⟩, ⟨.Bind fd { Ifindex := ifi.Index }, .done⟩])

/-- The text `t` contains `d` as a contiguous run of characters. -/
def containsText (t d : String) : Prop := d.data <:+: t.data

/-- The call is one of the set-up calls before the non-blocking switch:
resolution, socket creation or a socket option. -/
def Call.isSetup : Call → Bool
  | .InterfaceByName _ => true
  | .Socket _ _ _ => true
  | .SetsockoptInt _ _ _ _ => true
  | .SetsockoptCanRawFilter _ _ _ _ => true
  | _ => false

/-- A sample host with one CAN interface, "vcan0" of index 3: resolution fails
for any other name, socket creation answers descriptor 5, socket options and
the non-blocking switch succeed, bind succeeds on index 3. The state counts
the calls answered. -/
def vcanKernel : Kernel Nat where
  InterfaceByName name n :=
    (if name = "vcan0" then .ok { Index := 3 }
     else .error (.primitive 19 "no such network interface"), n + 1)
  Socket _ _ _ n := (.ok 5, n + 1)
  SetsockoptInt _ _ _ _ n := (none, n + 1)
  SetsockoptCanRawFilter _ _ _ _ n := (none, n + 1)
  SetNonblock _ _ n := (none, n + 1)
  Bind _ sa n :=
    (if sa.Ifindex = 3 then none else some (.primitive 19 "no such device"), n + 1)

/-! ## Option accumulator: lemmas -/

theorem CAN_INV_FILTER_eq : CAN_INV_FILTER = 2 ^ 29 := by
  unfold CAN_INV_FILTER; norm_num

/-- Setting the inversion bit keeps a 32-bit identifier in range. -/
theorem lor_CAN_INV_FILTER_lt (id : Nat) (h : id < 2 ^ 32) :
    id ||| CAN_INV_FILTER < 2 ^ 32 := by
  apply Nat.or_lt_two_pow h
  unfold CAN_INV_FILTER; norm_num

theorem testBit_lor_CAN_INV_FILTER (id j : Nat) :
    (id ||| CAN_INV_FILTER).testBit j = (id.testBit j || decide (j = 29)) := by
  rw [Nat.testBit_or, CAN_INV_FILTER_eq, Nat.testBit_two_pow]
  congr 1
  simp [eq_comm]

theorem WithFilterReceivedFramesByID_eq (filters : List IDFilter) (o : dialOpts) :
    WithFilterReceivedFramesByID filters o
      = { o with rawFilters := o.rawFilters ++ filters.map rawFilterOf } := by
  unfold WithFilterReceivedFramesByID
  induction filters generalizing o with
  | nil => simp
  | cons f fs ih =>
    rw [List.foldl_cons, ih]
    simp [rawFilterOf]

theorem invBitSet_iff (id : Nat) : invBitSet id = true ↔ id.testBit 29 = true := by
  unfold invBitSet
  rw [CAN_INV_FILTER_eq, Nat.and_two_pow]
  cases h : id.testBit 29 <;> simp

theorem testBit_clearInvBit (id j : Nat) :
    (clearInvBit id).testBit j = (id.testBit j && !decide (j = 29)) := by
  unfold clearInvBit
  rw [Nat.testBit_xor, Nat.testBit_and, CAN_INV_FILTER_eq, Nat.testBit_two_pow]
  by_cases hj : j = 29
  · subst hj; cases id.testBit 29 <;> simp
  · have : ¬ (29 = j) := fun h => hj h.symm
    cases id.testBit j <;> simp [hj, this]

theorem WithReceiveErrorFrames_eq (o : dialOpts) :
    WithReceiveErrorFrames o = { o with errorFrameMask := some CAN_ERR_MASK } := rfl

theorem applyOptions_nil (o : dialOpts) : applyOptions [] o = o := rfl

theorem applyOptions_cons (f : DialOption) (fs : List DialOption) (o : dialOpts) :
    applyOptions (f :: fs) o = applyOptions fs (f o) := rfl

/-- The configuration reached from `o` by a list of described options: the
mask is overwritten when the list enables error frames, the filter entries of
every filter option are appended in order. -/
theorem applyOptions_toOption (calls : List OptionCall) (o : dialOpts) :
    applyOptions (calls.map OptionCall.toOption) o =
      { errorFrameMask :=
          if OptionCall.receiveErrorFrames ∈ calls then some CAN_ERR_MASK
          else o.errorFrameMask,
        rawFilters := o.rawFilters ++
          (calls.map fun p => (p.toOption {}).rawFilters).flatten } := by
  induction calls generalizing o with
  | nil => simp [applyOptions_nil]
  | cons p ps ih =>
    rw [List.map_cons, applyOptions_cons, ih]
    cases p with
    | receiveErrorFrames =>
      simp [OptionCall.toOption, WithReceiveErrorFrames_eq]
    | filterReceivedFramesByID fs =>
      simp [OptionCall.toOption, WithFilterReceivedFramesByID_eq]

/-! ## Option accumulator: properties -/

/-- C1: applying `WithFilterReceivedFramesByID fs` to any configuration `c`
keeps the error-frame mask, keeps the filters already stored as a prefix, and
appends exactly one entry per input filter in input order; the entry for
`fs[i]` copies its mask, stores its identifier as it is when `Exclude` is
false, and stores it with the inversion bit set and every other bit unchanged
when `Exclude` is true. -/
theorem C1_filter_option_appends_entries (c : dialOpts) (fs : List IDFilter) :
    (WithFilterReceivedFramesByID fs c).errorFrameMask = c.errorFrameMask ∧
    ∃ added : List CanFilter,
      (WithFilterReceivedFramesByID fs c).rawFilters = c.rawFilters ++ added ∧
      added.length = fs.length ∧
      ∀ (i : Nat) (f : IDFilter), fs[i]? = some f →
        ∃ e : CanFilter, added[i]? = some e ∧ e.Mask = f.Mask ∧
          (f.Exclude = false → e.Id = f.ID) ∧
          (f.Exclude = true →
            e.Id = f.ID ||| CAN_INV_FILTER ∧ invBitSet e.Id = true ∧
            ∀ j : Nat, j ≠ 29 → e.Id.testBit j = f.ID.testBit j) := by
  rw [WithFilterReceivedFramesByID_eq]
  refine ⟨rfl, fs.map rawFilterOf, rfl, by simp, ?_⟩
  intro i f hf
  refine ⟨rawFilterOf f, by simp [hf], rfl, ?_, ?_⟩
  · intro hx; simp [rawFilterOf, hx]
  · intro hx
    have hid : (rawFilterOf f).Id = f.ID ||| CAN_INV_FILTER := by simp [rawFilterOf, hx]
    refine ⟨hid, ?_, ?_⟩
    · rw [invBitSet_iff, hid, testBit_lor_CAN_INV_FILTER]; simp
    · intro j hj
      rw [hid, testBit_lor_CAN_INV_FILTER]; simp [hj]

/-- C1, at a concrete input: two filters appended to a configuration that
already holds a mask and one filter. -/
theorem C1_filter_option_appends_entries_witness :
    (WithFilterReceivedFramesByID
        [⟨0x123, 0x7FF, false⟩, ⟨0x456, 0x7F0, true⟩]
        { errorFrameMask := some CAN_ERR_MASK, rawFilters := [⟨1, 2⟩] }).errorFrameMask
      = some CAN_ERR_MASK :=
  (C1_filter_option_appends_entries
    { errorFrameMask := some CAN_ERR_MASK, rawFilters := [⟨1, 2⟩] }
    [⟨0x123, 0x7FF, false⟩, ⟨0x456, 0x7F0, true⟩]).1

/-- C2: applying the filter option with `A` and then with `B` to the empty
configuration gives the entries derived from `A` followed by those derived
from `B`, and the same configuration as one application with `A ++ B`. -/
theorem C2_filter_option_accumulates (A B : List IDFilter) :
    (applyOptions [WithFilterReceivedFramesByID A, WithFilterReceivedFramesByID B]
        {}).rawFilters
      = (WithFilterReceivedFramesByID A {}).rawFilters
          ++ (WithFilterReceivedFramesByID B {}).rawFilters ∧
    applyOptions [WithFilterReceivedFramesByID A, WithFilterReceivedFramesByID B] {}
      = WithFilterReceivedFramesByID (A ++ B) {} := by
  simp [applyOptions, WithFilterReceivedFramesByID_eq]

/-- C3: for every list of options built by the two constructors and applied
in order to the empty configuration, the error-frame mask is set exactly when
the list contains `WithReceiveErrorFrames`, and a mask that is set is
`CAN_ERR_MASK`; applying `WithReceiveErrorFrames` twice is the same as
applying it once. -/
theorem C3_error_mask_set_iff_option_given (calls : List OptionCall) :
    ((applyOptions (calls.map OptionCall.toOption) {}).errorFrameMask.isSome = true
      ↔ OptionCall.receiveErrorFrames ∈ calls) ∧
    (∀ m : Int, (applyOptions (calls.map OptionCall.toOption) {}).errorFrameMask = some m →
      m = CAN_ERR_MASK) ∧
    (∀ c : dialOpts,
      applyOptions [WithReceiveErrorFrames, WithReceiveErrorFrames] c
        = applyOptions [WithReceiveErrorFrames] c) := by
  rw [applyOptions_toOption]
  refine ⟨?_, ?_, ?_⟩
  · by_cases h : OptionCall.receiveErrorFrames ∈ calls <;> simp [h]
  · intro m
    by_cases h : OptionCall.receiveErrorFrames ∈ calls <;> simp [h]
    intro hm; exact hm.symm
  · intro c; rfl

/-- C4 as stated fails: two filter options do not commute, the entries of the
one applied first come first. -/
theorem C4_filter_options_do_not_commute :
    applyOptions
        [WithFilterReceivedFramesByID [⟨0x100, 0x7FF, false⟩],
         WithFilterReceivedFramesByID [⟨0x200, 0x7FF, false⟩]] {}
      ≠ applyOptions
        [WithFilterReceivedFramesByID [⟨0x200, 0x7FF, false⟩],
         WithFilterReceivedFramesByID [⟨0x100, 0x7FF, false⟩]] {} := by
  decide

/-- C4 amended: for every configuration `c` and options `p`, `q` built by the
two constructors, both orders give the same error-frame mask; the filter list
is `c`'s list followed by the entries of the option applied first and then
those of the option applied second; so the two orders give the same
configuration whenever one of the options is `WithReceiveErrorFrames`. -/
theorem C4_options_commute_up_to_filter_order (c : dialOpts) (p q : OptionCall) :
    (applyOptions [p.toOption, q.toOption] c).errorFrameMask
      = (applyOptions [q.toOption, p.toOption] c).errorFrameMask ∧
    (applyOptions [p.toOption, q.toOption] c).rawFilters
      = c.rawFilters ++ (p.toOption {}).rawFilters ++ (q.toOption {}).rawFilters ∧
    (applyOptions [q.toOption, p.toOption] c).rawFilters
      = c.rawFilters ++ (q.toOption {}).rawFilters ++ (p.toOption {}).rawFilters ∧
    (p = .receiveErrorFrames ∨ q = .receiveErrorFrames →
      applyOptions [p.toOption, q.toOption] c = applyOptions [q.toOption, p.toOption] c) := by
  cases p <;> cases q <;>
    simp [applyOptions, OptionCall.toOption, WithReceiveErrorFrames_eq,
      WithFilterReceivedFramesByID_eq]

/-- C4 amended, at a concrete input: an error-frame option and a filter
option commute. -/
theorem C4_options_commute_up_to_filter_order_witness :
    applyOptions [WithReceiveErrorFrames, WithFilterReceivedFramesByID [⟨0x100, 0x7FF, true⟩]]
        { rawFilters := [⟨1, 2⟩] }
      = applyOptions [WithFilterReceivedFramesByID [⟨0x100, 0x7FF, true⟩], WithReceiveErrorFrames]
        { rawFilters := [⟨1, 2⟩] } :=
  (C4_options_commute_up_to_filter_order { rawFilters := [⟨1, 2⟩] } .receiveErrorFrames
    (.filterReceivedFramesByID [⟨0x100, 0x7FF, true⟩])).2.2.2 (Or.inl rfl)

/-- C10: for a filter whose identifier is below `2 ^ 29`, the entry stored by
`WithFilterReceivedFramesByID` has the inversion bit set exactly when
`Exclude` is true, and clearing that bit gives back the identifier; and there
is a 32-bit filter with `Exclude` false and identifier at least `2 ^ 29` whose
stored entry has the inversion bit set. -/
theorem C10_inversion_bit_iff_exclude_below_two_pow_29 :
    (∀ (c : dialOpts) (fs : List IDFilter) (i : Nat) (f : IDFilter),
      fs[i]? = some f → f.ID < 2 ^ 29 →
      ∃ e : CanFilter,
        (WithFilterReceivedFramesByID fs c).rawFilters[c.rawFilters.length + i]? = some e ∧
        (invBitSet e.Id = true ↔ f.Exclude = true) ∧ clearInvBit e.Id = f.ID) ∧
    (∃ f : IDFilter, f.Exclude = false ∧ 2 ^ 29 ≤ f.ID ∧ f.ID < 2 ^ 32 ∧ f.Mask < 2 ^ 32 ∧
      ∃ e : CanFilter, (WithFilterReceivedFramesByID [f] {}).rawFilters = [e] ∧
        e.Id = f.ID ∧ invBitSet e.Id = true) := by
  constructor
  · intro c fs i f hf hlt
    have h29 : f.ID.testBit 29 = false := Nat.testBit_lt_two_pow hlt
    refine ⟨rawFilterOf f, ?_, ?_, ?_⟩
    · rw [WithFilterReceivedFramesByID_eq]
      simp [List.getElem?_append_right, hf]
    · rw [invBitSet_iff]
      cases hx : f.Exclude
      · simp [rawFilterOf, hx, h29]
      · have hid : (rawFilterOf f).Id = f.ID ||| CAN_INV_FILTER := by simp [rawFilterOf, hx]
        rw [hid, testBit_lor_CAN_INV_FILTER]; simp
    · apply Nat.eq_of_testBit_eq
      intro j
      rw [testBit_clearInvBit]
      by_cases hj : j = 29
      · subst hj; simp [h29]
      · cases hx : f.Exclude
        · simp [rawFilterOf, hx, hj]
        · have hid : (rawFilterOf f).Id = f.ID ||| CAN_INV_FILTER := by simp [rawFilterOf, hx]
          rw [hid, testBit_lor_CAN_INV_FILTER]; simp [hj]
  · exact ⟨⟨0x20000123, 0x7FF, false⟩, rfl, by norm_num, by norm_num, by norm_num,
      ⟨0x20000123, 0x7FF⟩, by decide, rfl, by decide⟩

/-- C10, at a concrete input: an excluded filter with identifier `0x123`. -/
theorem C10_inversion_bit_iff_exclude_below_two_pow_29_witness :
    ∃ e : CanFilter,
      (WithFilterReceivedFramesByID [⟨0x7FF, 0x7FF, false⟩, ⟨0x123, 0x7FF, true⟩]
        { rawFilters := [⟨1, 2⟩] }).rawFilters[1 + 1]? = some e ∧
      (invBitSet e.Id = true ↔ true = true) ∧ clearInvBit e.Id = 0x123 :=
  C10_inversion_bit_iff_exclude_below_two_pow_29.1 { rawFilters := [⟨1, 2⟩] }
    [⟨0x7FF, 0x7FF, false⟩, ⟨0x123, 0x7FF, true⟩] 1 ⟨0x123, 0x7FF, true⟩ rfl (by norm_num)

/-! ## Socket establisher: lemmas -/

/-- The `net.OpError` that the deferred function of `dialRaw` builds. -/
theorem dialRaw_eq {σ : Type} (net : String) (K : Kernel σ) (s : σ) (device : String)
    (opt : List DialOption) :
    dialRaw net K s device opt =
      { conn := (dialRawBody K ⟨s, []⟩ device opt).conn,
        err := (dialRawBody K ⟨s, []⟩ device opt).err.map
          (Error.OpError "dial" net (some { device := device })),
        world := (dialRawBody K ⟨s, []⟩ device opt).world } := by
  unfold dialRaw
  cases h : (dialRawBody K ⟨s, []⟩ device opt).err <;> simp [h]
  rw [← h]

/-- Every run of the body ends in one of the seven ways of `Outcome`. -/
theorem dialRawBody_outcome {σ : Type} (K : Kernel σ) (s : σ) (device : String)
    (opt : List DialOption) :
    Outcome device (applyOptions opt {}) (dialRawBody K ⟨s, []⟩ device opt).conn
      (dialRawBody K ⟨s, []⟩ device opt).err
      (dialRawBody K ⟨s, []⟩ device opt).world.log := by
  unfold dialRawBody
  simp only [sysInterfaceByName, sysSocket, sysSetsockoptInt, sysSetsockoptCanRawFilter,
    sysSetNonblock, sysBind]
  generalize applyOptions opt {} = opts
  rcases h1 : K.InterfaceByName device s with ⟨r1, s1⟩
  cases r1 with
  | error e => exact Outcome.resolveFailed e
  | ok ifi =>
  dsimp only
  rcases h2 : K.Socket AF_CAN SOCK_RAW CAN_RAW s1 with ⟨r2, s2⟩
  cases r2 with
  | error e => exact Outcome.socketFailed ifi e
  | ok fd =>
  dsimp only
  cases hm : opts.errorFrameMask with
  | none =>
    dsimp only
    by_cases hf : opts.rawFilters = []
    · have hl : ¬ (opts.rawFilters.length ≠ 0) := by simp [hf]
      simp only [if_neg hl]
      rcases h5 : K.SetNonblock fd true s2 with ⟨r5, s5⟩
      cases r5 with
      | some e =>
        simpa [sockoptEvents, errFilterCalls, rawFilterCalls, hm, hf, Result.ofErr,
            Result.ofInterface, Result.ofDescriptor, Event.done] using
          @Outcome.nonblockFailed device opts ifi fd e
      | none =>
        dsimp only
        rcases h6 : K.Bind fd ⟨ifi.Index⟩ s5 with ⟨r6, s6⟩
        cases r6 with
        | some e =>
          simpa [sockoptEvents, errFilterCalls, rawFilterCalls, hm, hf, Result.ofErr,
              Result.ofInterface, Result.ofDescriptor, Event.done] using
            @Outcome.bindFailed device opts ifi fd e
        | none =>
          simpa [sockoptEvents, errFilterCalls, rawFilterCalls, hm, hf, Result.ofErr,
              Result.ofInterface, Result.ofDescriptor, Event.done] using
            @Outcome.success device opts ifi fd
    · have hl : opts.rawFilters.length ≠ 0 := by simpa using hf
      simp only [if_pos hl]
      rcases h4 : K.SetsockoptCanRawFilter fd SOL_CAN_RAW CAN_RAW_FILTER opts.rawFilters s2
        with ⟨r4, s4⟩
      cases r4 with
      | some e =>
        simpa [sockoptEvents, errFilterCalls, rawFilterCalls, hm, hf, Result.ofErr,
            Result.ofInterface, Result.ofDescriptor, Event.done] using
          @Outcome.rawFilterFailed device opts ifi fd e hf
      | none =>
        dsimp only
        rcases h5 : K.SetNonblock fd true s4 with ⟨r5, s5⟩
        cases r5 with
        | some e =>
          simpa [sockoptEvents, errFilterCalls, rawFilterCalls, hm, hf, Result.ofErr,
              Result.ofInterface, Result.ofDescriptor, Event.done] using
            @Outcome.nonblockFailed device opts ifi fd e
        | none =>
          dsimp only
          rcases h6 : K.Bind fd ⟨ifi.Index⟩ s5 with ⟨r6, s6⟩
          cases r6 with
          | some e =>
            simpa [sockoptEvents, errFilterCalls, rawFilterCalls, hm, hf, Result.ofErr,
                Result.ofInterface, Result.ofDescriptor, Event.done] using
              @Outcome.bindFailed device opts ifi fd e
          | none =>
            simpa [sockoptEvents, errFilterCalls, rawFilterCalls, hm, hf, Result.ofErr,
                Result.ofInterface, Result.ofDescriptor, Event.done] using
              @Outcome.success device opts ifi fd
  | some mask =>
    dsimp only
    rcases h3 : K.SetsockoptInt fd SOL_CAN_RAW CAN_RAW_ERR_FILTER mask s2 with ⟨r3, s3⟩
    cases r3 with
    | some e =>
      have hf : True := trivial
      simpa [sockoptEvents, errFilterCalls, rawFilterCalls, hm, hf, Result.ofErr,
          Result.ofInterface, Result.ofDescriptor, Event.done] using
        @Outcome.errFilterFailed device opts ifi fd mask e hm
    | none =>
      dsimp only
      by_cases hf : opts.rawFilters = []
      · have hl : ¬ (opts.rawFilters.length ≠ 0) := by simp [hf]
        simp only [if_neg hl]
        rcases h5 : K.SetNonblock fd true s3 with ⟨r5, s5⟩
        cases r5 with
        | some e =>
          simpa [sockoptEvents, errFilterCalls, rawFilterCalls, hm, hf, Result.ofErr,
              Result.ofInterface, Result.ofDescriptor, Event.done] using
            @Outcome.nonblockFailed device opts ifi fd e
        | none =>
          dsimp only
          rcases h6 : K.Bind fd ⟨ifi.Index⟩ s5 with ⟨r6, s6⟩
          cases r6 with
          | some e =>
            simpa [sockoptEvents, errFilterCalls, rawFilterCalls, hm, hf, Result.ofErr,
                Result.ofInterface, Result.ofDescriptor, Event.done] using
              @Outcome.bindFailed device opts ifi fd e
          | none =>
            simpa [sockoptEvents, errFilterCalls, rawFilterCalls, hm, hf, Result.ofErr,
                Result.ofInterface, Result.ofDescriptor, Event.done] using
              @Outcome.success device opts ifi fd
      · have hl : opts.rawFilters.length ≠ 0 := by simpa using hf
        simp only [if_pos hl]
        rcases h4 : K.SetsockoptCanRawFilter fd SOL_CAN_RAW CAN_RAW_FILTER opts.rawFilters s3
          with ⟨r4, s4⟩
        cases r4 with
        | some e =>
          simpa [sockoptEvents, errFilterCalls, rawFilterCalls, hm, hf, Result.ofErr,
              Result.ofInterface, Result.ofDescriptor, Event.done] using
            @Outcome.rawFilterFailed device opts ifi fd e hf
        | none =>
          dsimp only
          rcases h5 : K.SetNonblock fd true s4 with ⟨r5, s5⟩
          cases r5 with
          | some e =>
            simpa [sockoptEvents, errFilterCalls, rawFilterCalls, hm, hf, Result.ofErr,
                Result.ofInterface, Result.ofDescriptor, Event.done] using
              @Outcome.nonblockFailed device opts ifi fd e
          | none =>
            dsimp only
            rcases h6 : K.Bind fd ⟨ifi.Index⟩ s5 with ⟨r6, s6⟩
            cases r6 with
            | some e =>
              simpa [sockoptEvents, errFilterCalls, rawFilterCalls, hm, hf, Result.ofErr,
                  Result.ofInterface, Result.ofDescriptor, Event.done] using
                @Outcome.bindFailed device opts ifi fd e
            | none =>
              simpa [sockoptEvents, errFilterCalls, rawFilterCalls, hm, hf, Result.ofErr,
                  Result.ofInterface, Result.ofDescriptor, Event.done] using
                @Outcome.success device opts ifi fd

/-- Every run of `dialRaw` ends in one of the seven ways of `Outcome`, with
the error of the body, if any, put inside a `net.OpError`. -/
theorem dialRaw_outcome {σ : Type} (net : String) (K : Kernel σ) (s : σ) (device : String)
    (opt : List DialOption) :
    ∃ (c : Option fileConn) (e : Option Error) (l : List Event),
      Outcome device (applyOptions opt {}) c e l ∧
      (dialRaw net K s device opt).conn = c ∧
      (dialRaw net K s device opt).err
        = e.map (Error.OpError "dial" net (some { device := device })) ∧
      (dialRaw net K s device opt).world.log = l ∧
      (dialRaw net K s device opt).calls = l.map Event.call := by
  refine ⟨_, _, _, dialRawBody_outcome K s device opt, ?_, ?_, ?_, ?_⟩ <;>
    simp [dialRaw_eq, DialResult.calls]

theorem fullSequence_nodup (device : String) (opts : dialOpts) (ifi : Interface) (fd : Nat) :
    (fullSequence device opts ifi fd).Nodup := by
  unfold fullSequence errFilterCalls rawFilterCalls
  cases opts.errorFrameMask <;> by_cases hf : opts.rawFilters = [] <;> simp [hf]

/-- Dialing an unknown device on the sample host: the text of the returned
error names the operation, the network, the device and the failed step. -/
theorem dialRaw_unknown_device_errorText :
    (dialRaw "can" vcanKernel 0 "can9" [WithReceiveErrorFrames]).err.map Error.errorText
      = some "dial can can9: interface can9: no such network interface" := by
  decide

/-- Dialing "vcan0" on the sample host with one filter: the entry
`{Id: 0x123, Mask: 0x7FF}` is installed between socket creation and the
non-blocking switch, and bind comes last. -/
theorem dialRaw_vcan0_one_filter_calls :
    (dialRaw "can" vcanKernel 0 "vcan0"
        [WithFilterReceivedFramesByID [⟨0x123, 0x7FF, false⟩]]).calls
      = [.InterfaceByName "vcan0", .Socket AF_CAN SOCK_RAW CAN_RAW,
         .SetsockoptCanRawFilter 5 SOL_CAN_RAW CAN_RAW_FILTER [⟨0x123, 0x7FF⟩],
         .SetNonblock 5 true, .Bind 5 { Ifindex := 3 }] := by
  decide

/-! ## Socket establisher: properties -/

/-- C5: the calls `dialRaw` makes are an initial segment of the sequence
resolve, open, error filter (only if the mask is set), raw filter (only if the
filter list is not empty), non-blocking, bind, taken with the interface and
descriptor the kernel answered; that sequence has no repeated call; only the
last call made can have failed; when no call failed the whole sequence was
made, and when `dialRaw` returns an error the last call made is one that
failed; and no call closes a descriptor. -/
theorem C5_calls_are_prefix_up_to_first_failure {σ : Type} (net : String) (K : Kernel σ)
    (s : σ) (device : String) (opt : List DialOption) :
    ∃ (ifi : Interface) (fd : Nat),
      (dialRaw net K s device opt).calls
        <+: fullSequence device (applyOptions opt {}) ifi fd ∧
      (fullSequence device (applyOptions opt {}) ifi fd).Nodup ∧
      (∀ ifi0, ⟨.InterfaceByName device, .iface ifi0⟩ ∈ (dialRaw net K s device opt).world.log →
        ifi0 = ifi) ∧
      (∀ fd0, ⟨.Socket AF_CAN SOCK_RAW CAN_RAW, .descriptor fd0⟩
          ∈ (dialRaw net K s device opt).world.log → fd0 = fd) ∧
      (∀ ev ∈ (dialRaw net K s device opt).world.log.dropLast, ev.err = none) ∧
      ((∀ ev ∈ (dialRaw net K s device opt).world.log, ev.err = none) →
        (dialRaw net K s device opt).calls
          = fullSequence device (applyOptions opt {}) ifi fd) ∧
      ((dialRaw net K s device opt).err ≠ none →
        ∃ ev e, (dialRaw net K s device opt).world.log.getLast? = some ev ∧ ev.err = some e) ∧
      (∀ fd0, Call.Close fd0 ∉ (dialRaw net K s device opt).calls) := by
  obtain ⟨c, e, l, h, hc, he, hl, hcalls⟩ := dialRaw_outcome net K s device opt
  rw [hcalls, hl, he]
  generalize applyOptions opt {} = opts at h
  cases h with
  | resolveFailed e =>
    refine ⟨⟨0⟩, 0, ?_, fullSequence_nodup _ _ _ _, ?_⟩ <;>
      simp [fullSequence, Event.err]
  | socketFailed ifi e =>
    refine ⟨ifi, 0, ?_, fullSequence_nodup _ _ _ _, ?_⟩ <;>
      simp [fullSequence, Event.err]
  | errFilterFailed ifi fd mask e hm =>
    refine ⟨ifi, fd, ?_, fullSequence_nodup _ _ _ _, ?_⟩ <;>
      simp [fullSequence, errFilterCalls, hm, Event.err]
  | rawFilterFailed ifi fd e hf =>
    refine ⟨ifi, fd, ?_, fullSequence_nodup _ _ _ _, ?_⟩ <;>
      cases hm : opts.errorFrameMask <;>
      simp [fullSequence, errFilterCalls, rawFilterCalls, hm, hf, Event.err, Event.done]
  | nonblockFailed ifi fd e =>
    refine ⟨ifi, fd, ?_, fullSequence_nodup _ _ _ _, ?_⟩ <;>
      cases hm : opts.errorFrameMask <;> by_cases hf : opts.rawFilters = [] <;>
      simp [fullSequence, errFilterCalls, rawFilterCalls, sockoptEvents, hm, hf, Event.err,
        Event.done]
  | bindFailed ifi fd e =>
    refine ⟨ifi, fd, ?_, fullSequence_nodup _ _ _ _, ?_⟩ <;>
      cases hm : opts.errorFrameMask <;> by_cases hf : opts.rawFilters = [] <;>
      simp [fullSequence, errFilterCalls, rawFilterCalls, sockoptEvents, hm, hf, Event.err,
        Event.done]
  | success ifi fd =>
    refine ⟨ifi, fd, ?_, fullSequence_nodup _ _ _ _, ?_⟩ <;>
      cases hm : opts.errorFrameMask <;> by_cases hf : opts.rawFilters = [] <;>
      simp [fullSequence, errFilterCalls, rawFilterCalls, sockoptEvents, hm, hf, Event.err,
        Event.done]

/-- C6: `dialRaw` returns no connection exactly when it returns an error; an
error is returned only when a call failed; and when a call failed with error
`e`, the returned error is a `net.OpError` with `Op` "dial", `Net` the CAN raw
network name and `Addr` the address of the device, whose `Err` is the
`fmt.Errorf` wrapper of `e` under the tag of the failed step: its text is the
tag, a colon and the text of `e`, unwrapping it gives `e`, and so unwrapping
the returned error twice gives `e`. -/
theorem C6_error_wraps_failed_step {σ : Type} (net : String) (K : Kernel σ)
    (s : σ) (device : String) (opt : List DialOption) :
    ((dialRaw net K s device opt).conn = none ↔ (dialRaw net K s device opt).err ≠ none) ∧
    ((dialRaw net K s device opt).err ≠ none →
      ∃ ev ∈ (dialRaw net K s device opt).world.log, ev.err ≠ none) ∧
    (∀ ev ∈ (dialRaw net K s device opt).world.log, ∀ e : Error, ev.err = some e →
      (dialRaw net K s device opt).err
        = some (.OpError "dial" net (some { device := device })
            (Errorf (stepTag device ev.call) e)) ∧
      (Errorf (stepTag device ev.call) e).errorText
        = stepTag device ev.call ++ ": " ++ e.errorText ∧
      (Errorf (stepTag device ev.call) e).Unwrap = some e ∧
      ((dialRaw net K s device opt).err.bind Error.Unwrap).bind Error.Unwrap = some e) ∧
    ({ device := device } : canRawAddr).String = device := by
  have main : ((dialRaw net K s device opt).conn = none ↔
        (dialRaw net K s device opt).err ≠ none) ∧
      ((dialRaw net K s device opt).err ≠ none →
        ∃ ev ∈ (dialRaw net K s device opt).world.log, ev.err ≠ none) ∧
      (∀ ev ∈ (dialRaw net K s device opt).world.log, ∀ e : Error, ev.err = some e →
        (dialRaw net K s device opt).err
          = some (.OpError "dial" net (some { device := device })
              (Errorf (stepTag device ev.call) e))) := by
    obtain ⟨c, e, l, h, hc, he, hl, -⟩ := dialRaw_outcome net K s device opt
    rw [hc, hl, he]
    generalize applyOptions opt {} = opts at h
    cases h with
    | resolveFailed e => simp [Event.err, stepTag]
    | socketFailed ifi e => simp [Event.err, stepTag]
    | errFilterFailed ifi fd mask e hm => simp [Event.err, stepTag]
    | rawFilterFailed ifi fd e hf =>
      cases hm : opts.errorFrameMask <;>
        simp [errFilterCalls, hm, Event.done, Event.err, stepTag]
    | nonblockFailed ifi fd e =>
      cases hm : opts.errorFrameMask <;> by_cases hf : opts.rawFilters = [] <;>
        simp [errFilterCalls, rawFilterCalls, sockoptEvents, hm, hf, Event.done, Event.err,
          stepTag]
    | bindFailed ifi fd e =>
      cases hm : opts.errorFrameMask <;> by_cases hf : opts.rawFilters = [] <;>
        simp [errFilterCalls, rawFilterCalls, sockoptEvents, hm, hf, Event.done, Event.err,
          stepTag]
    | success ifi fd =>
      cases hm : opts.errorFrameMask <;> by_cases hf : opts.rawFilters = [] <;>
        simp [errFilterCalls, rawFilterCalls, sockoptEvents, hm, hf, Event.done, Event.err]
  refine ⟨main.1, main.2.1, fun ev hev e he => ?_, rfl⟩
  have hE := main.2.2 ev hev e he
  refine ⟨hE, rfl, rfl, ?_⟩
  rw [hE]
  rfl

/-- C8: when resolving the device name fails, `dialRaw` returns no connection
and an error whose text contains the device name, and the only call it makes
is the resolution: no socket is opened. -/
theorem C8_resolution_failure_opens_no_socket {σ : Type} (net : String) (K : Kernel σ)
    (s : σ) (device : String) (opt : List DialOption) (e : Error)
    (hfail : (K.InterfaceByName device s).1 = .error e) :
    (dialRaw net K s device opt).conn = none ∧
    (∃ E : Error, (dialRaw net K s device opt).err = some E ∧
      containsText E.errorText device ∧ E.Unwrap = some (Errorf ("interface " ++ device) e)) ∧
    (dialRaw net K s device opt).world.log = [⟨.InterfaceByName device, .failed e⟩] ∧
    (dialRaw net K s device opt).calls = [.InterfaceByName device] := by
  have hbody : dialRawBody K ⟨s, []⟩ device opt =
      ⟨none, some (Errorf ("interface " ++ device) e),
        ⟨(K.InterfaceByName device s).2, [⟨.InterfaceByName device, .failed e⟩]⟩⟩ := by
    unfold dialRawBody
    simp [sysInterfaceByName, hfail, Result.ofInterface]
  rw [dialRaw_eq, hbody]
  refine ⟨rfl, ⟨_, rfl, ?_, rfl⟩, rfl, rfl⟩
  simp only [containsText, Error.errorText, Errorf, String.data_append]
  refine ⟨(if net ≠ "" then "dial" ++ " " ++ net else "dial").data ++ " ".data
    ++ ({ device := device } : canRawAddr).String.data ++ ": ".data ++ "interface ".data,
    ": ".data ++ e.errorText.data, ?_⟩
  simp only [List.append_assoc]

/-- C9: when the device resolves to interface `ifi`, no option is given and
the kernel accepts socket creation (answering descriptor `fd`), the
non-blocking switch and bind, `dialRaw` returns no error and a connection
whose address carries the device name and whose file owns `fd`; the calls
are resolve, open, non-blocking on `fd`, bind of `fd` to the index of `ifi`,
in that order, with no socket-option call. -/
theorem C9_dial_without_options_succeeds {σ : Type} (net : String) (K : Kernel σ)
    (s s1 s2 s3 s4 : σ) (device : String) (ifi : Interface) (fd : Nat)
    (hresolve : K.InterfaceByName device s = (.ok ifi, s1))
    (hsocket : K.Socket AF_CAN SOCK_RAW CAN_RAW s1 = (.ok fd, s2))
    (hnonblock : K.SetNonblock fd true s2 = (none, s3))
    (hbind : K.Bind fd { Ifindex := ifi.Index } s3 = (none, s4)) :
    (dialRaw net K s device []).err = none ∧
    (∃ c : fileConn, (dialRaw net K s device []).conn = some c ∧
      c.ra.String = device ∧ c.f.fd = fd) ∧
    (dialRaw net K s device []).world.log =
      [⟨.InterfaceByName device, .iface ifi⟩,
       ⟨.Socket AF_CAN SOCK_RAW CAN_RAW, .descriptor fd⟩,
       ⟨.SetNonblock fd true, .done⟩,
       ⟨.Bind fd { Ifindex := ifi.Index }, .done⟩] ∧
    (dialRaw net K s device []).calls =
      [.InterfaceByName device, .Socket AF_CAN SOCK_RAW CAN_RAW, .SetNonblock fd true,
       .Bind fd { Ifindex := ifi.Index }] ∧
    (dialRaw net K s device []).world.state = s4 := by
  have hbody : dialRawBody K ⟨s, []⟩ device [] =
      ⟨some { ra := { device := device }, f := { fd := fd, name := "can" } }, none,
        ⟨s4, [⟨.InterfaceByName device, .iface ifi⟩,
          ⟨.Socket AF_CAN SOCK_RAW CAN_RAW, .descriptor fd⟩,
          ⟨.SetNonblock fd true, .done⟩,
          ⟨.Bind fd { Ifindex := ifi.Index }, .done⟩]⟩⟩ := by
    unfold dialRawBody
    simp [sysInterfaceByName, sysSocket, sysSetNonblock, sysBind, applyOptions, hresolve,
      hsocket, hnonblock, hbind, Result.ofInterface, Result.ofDescriptor, Result.ofErr]
  rw [dialRaw_eq, hbody]
  exact ⟨rfl, ⟨_, rfl, rfl, rfl⟩, rfl, rfl, rfl⟩

/-- C7: when the options are built by the two constructors and, in the run,
resolution, socket creation and every socket-option call succeed, the calls
are: resolve, open, then the error-filter option once with `CAN_ERR_MASK` if
`WithReceiveErrorFrames` was supplied and not at all otherwise, then the
raw-filter option once with the whole accumulated filter list in order if
that list is not empty and not at all if it is empty, then the non-blocking
switch, then bind unless the switch failed; the descriptor of the option
calls is the one the socket call answered. -/
theorem C7_sockopt_calls_once_before_bind {σ : Type} (net : String) (K : Kernel σ)
    (s : σ) (device : String) (calls : List OptionCall)
    (hsetup : ∀ ev ∈ (dialRaw net K s device (calls.map OptionCall.toOption)).world.log,
      ev.call.isSetup = true → ev.err = none) :
    ∃ (ifi : Interface) (fd : Nat) (rest : List Call),
      (dialRaw net K s device (calls.map OptionCall.toOption)).calls =
        [.InterfaceByName device, .Socket AF_CAN SOCK_RAW CAN_RAW]
        ++ (if OptionCall.receiveErrorFrames ∈ calls then
              [.SetsockoptInt fd SOL_CAN_RAW CAN_RAW_ERR_FILTER CAN_ERR_MASK]
            else [])
        ++ (if (calls.map fun p => (p.toOption {}).rawFilters).flatten = [] then []
            else [.SetsockoptCanRawFilter fd SOL_CAN_RAW CAN_RAW_FILTER
              (calls.map fun p => (p.toOption {}).rawFilters).flatten])
        ++ .SetNonblock fd true :: rest ∧
      (rest = [] ∨ rest = [.Bind fd { Ifindex := ifi.Index }]) ∧
      ⟨.Socket AF_CAN SOCK_RAW CAN_RAW, .descriptor fd⟩
        ∈ (dialRaw net K s device (calls.map OptionCall.toOption)).world.log := by
  obtain ⟨c, e, l, h, hc, he, hl, hcalls⟩ :=
    dialRaw_outcome net K s device (calls.map OptionCall.toOption)
  rw [hl] at hsetup
  rw [hcalls, hl]
  rw [applyOptions_toOption] at h
  cases h with
  | resolveFailed e => simp [Call.isSetup, Event.err] at hsetup
  | socketFailed ifi e => simp [Call.isSetup, Event.err] at hsetup
  | errFilterFailed ifi fd mask e hm => simp [Call.isSetup, Event.err] at hsetup
  | rawFilterFailed ifi fd e hf =>
    have hlast := hsetup _ (List.mem_append_right _ (List.mem_singleton_self _)) rfl
    simp [Event.err] at hlast
  | nonblockFailed ifi fd e =>
    refine ⟨ifi, fd, [], ?_, Or.inl rfl, by simp⟩
    by_cases hin : OptionCall.receiveErrorFrames ∈ calls <;>
      by_cases hf : (calls.map fun p => (p.toOption {}).rawFilters).flatten = [] <;>
      simp [sockoptEvents, errFilterCalls, rawFilterCalls, hin, hf, Event.done]
  | bindFailed ifi fd e =>
    refine ⟨ifi, fd, _, ?_, Or.inr rfl, by simp⟩
    by_cases hin : OptionCall.receiveErrorFrames ∈ calls <;>
      by_cases hf : (calls.map fun p => (p.toOption {}).rawFilters).flatten = [] <;>
      simp [sockoptEvents, errFilterCalls, rawFilterCalls, hin, hf, Event.done]
  | success ifi fd =>
    refine ⟨ifi, fd, _, ?_, Or.inr rfl, by simp⟩
    by_cases hin : OptionCall.receiveErrorFrames ∈ calls <;>
      by_cases hf : (calls.map fun p => (p.toOption {}).rawFilters).flatten = [] <;>
      simp [sockoptEvents, errFilterCalls, rawFilterCalls, hin, hf, Event.done]

/-- C7, at a concrete input: dialing "vcan0" on the sample host with the
error-frame option and one filter. -/
theorem C7_sockopt_calls_once_before_bind_witness :
    (∀ ev ∈ (dialRaw "can" vcanKernel 0 "vcan0"
          ([OptionCall.receiveErrorFrames,
            .filterReceivedFramesByID [⟨0x123, 0x7FF, false⟩]].map
              OptionCall.toOption)).world.log,
      ev.call.isSetup = true → ev.err = none) ∧
    ∃ (ifi : Interface) (fd : Nat) (rest : List Call),
      (dialRaw "can" vcanKernel 0 "vcan0"
          ([OptionCall.receiveErrorFrames,
            .filterReceivedFramesByID [⟨0x123, 0x7FF, false⟩]].map
              OptionCall.toOption)).calls =
        [.InterfaceByName "vcan0", .Socket AF_CAN SOCK_RAW CAN_RAW]
        ++ (if OptionCall.receiveErrorFrames ∈
              [OptionCall.receiveErrorFrames,
               .filterReceivedFramesByID [⟨0x123, 0x7FF, false⟩]] then
              [.SetsockoptInt fd SOL_CAN_RAW CAN_RAW_ERR_FILTER CAN_ERR_MASK]
            else [])
        ++ (if ([OptionCall.receiveErrorFrames,
                 .filterReceivedFramesByID [⟨0x123, 0x7FF, false⟩]].map
                  fun p => (p.toOption {}).rawFilters).flatten = [] then []
            else [.SetsockoptCanRawFilter fd SOL_CAN_RAW CAN_RAW_FILTER
              ([OptionCall.receiveErrorFrames,
                .filterReceivedFramesByID [⟨0x123, 0x7FF, false⟩]].map
                  fun p => (p.toOption {}).rawFilters).flatten])
        ++ .SetNonblock fd true :: rest ∧
      (rest = [] ∨ rest = [.Bind fd { Ifindex := ifi.Index }]) ∧
      ⟨.Socket AF_CAN SOCK_RAW CAN_RAW, .descriptor fd⟩
        ∈ (dialRaw "can" vcanKernel 0 "vcan0"
            ([OptionCall.receiveErrorFrames,
              .filterReceivedFramesByID [⟨0x123, 0x7FF, false⟩]].map
                OptionCall.toOption)).world.log :=
  ⟨by decide,
   C7_sockopt_calls_once_before_bind "can" vcanKernel 0 "vcan0"
    [.receiveErrorFrames, .filterReceivedFramesByID [⟨0x123, 0x7FF, false⟩]] (by decide)⟩

/-- C8, at a concrete input: dialing a name the sample host does not know. -/
theorem C8_resolution_failure_opens_no_socket_witness :
    (vcanKernel.InterfaceByName "no such can" 0).1
      = .error (.primitive 19 "no such network interface") ∧
    (dialRaw "can" vcanKernel 0 "no such can" [WithReceiveErrorFrames]).conn = none ∧
    (dialRaw "can" vcanKernel 0 "no such can" [WithReceiveErrorFrames]).calls
      = [.InterfaceByName "no such can"] :=
  ⟨by rfl,
   (C8_resolution_failure_opens_no_socket "can" vcanKernel 0 "no such can"
      [WithReceiveErrorFrames] (.primitive 19 "no such network interface") (by rfl)).1,
   (C8_resolution_failure_opens_no_socket "can" vcanKernel 0 "no such can"
      [WithReceiveErrorFrames] (.primitive 19 "no such network interface") (by rfl)).2.2.2⟩

/-- C9, at a concrete input: dialing "vcan0" on the sample host with no
option. -/
theorem C9_dial_without_options_succeeds_witness :
    (dialRaw "can" vcanKernel 0 "vcan0" []).err = none ∧
    (∃ c : fileConn, (dialRaw "can" vcanKernel 0 "vcan0" []).conn = some c ∧
      c.ra.String = "vcan0" ∧ c.f.fd = 5) ∧
    (dialRaw "can" vcanKernel 0 "vcan0" []).world.log =
      [⟨.InterfaceByName "vcan0", .iface ⟨3⟩⟩,
       ⟨.Socket AF_CAN SOCK_RAW CAN_RAW, .descriptor 5⟩,
       ⟨.SetNonblock 5 true, .done⟩,
       ⟨.Bind 5 { Ifindex := 3 }, .done⟩] ∧
    (dialRaw "can" vcanKernel 0 "vcan0" []).calls =
      [.InterfaceByName "vcan0", .Socket AF_CAN SOCK_RAW CAN_RAW, .SetNonblock 5 true,
       .Bind 5 { Ifindex := 3 }] ∧
    (dialRaw "can" vcanKernel 0 "vcan0" []).world.state = 4 :=
  C9_dial_without_options_succeeds "can" vcanKernel 0 1 2 3 4 "vcan0" ⟨3⟩ 5
    (by rfl) (by rfl) (by rfl) (by rfl)

end socketcan
